import Mathlib

/-!
Shallow embedding of the kroma transaction-manager configuration layer
(`utils/service/txmgr/cli.go`) and the service utility helpers
(`utils/service/util.go`), together with spec-level models of the
submission-loop behaviours whose implementation lives outside the
embedded sources.

Conventions:
* Go `time.Duration` and `uint64` values are embedded as `Nat` (only
  zero-tests and equalities matter to the properties below).
* Go `error` results are embedded as `Option String` (`none` = nil error)
  or `Except String α` for functions returning a value or an error.
* Go byte strings handled character-wise (env-var splitting, hex address
  parsing) are embedded as `List Char`.
-/

namespace Kroma

/-- Embeds `client.CLIConfig` (`utils/signer/client`), which is outside the
embedded sources; the txmgr code depends on it only through the result of
its `Check` method, so it is abstracted by that result. -/
structure SignerCLIConfig where
  checkResult : Option String
deriving DecidableEq

/-- The signer client config's `Check`, abstracted by its result. -/
def SignerCLIConfig.Check (c : SignerCLIConfig) : Option String :=
  c.checkResult

/-- Embeds `txmgr.CLIConfig` from `utils/service/txmgr/cli.go`. -/
structure CLIConfig where
  L1RPCURL : String
  Mnemonic : String
  HDPath : String
  PrivateKey : String
  SignerCLIConfig : SignerCLIConfig
  NumConfirmations : Nat
  SafeAbortNonceTooLowCount : Nat
  TxBufferSize : Nat
  ResubmissionTimeout : Nat
  ReceiptQueryInterval : Nat
  NetworkTimeout : Nat
  TxSendTimeout : Nat
  TxNotInMempoolTimeout : Nat

/-- Embeds `CLIConfig.Check` from `utils/service/txmgr/cli.go` lines 122-148:
the guard chain returns the first failing validation error, else the result
of the signer config's own `Check`. -/
def CLIConfig.Check (m : CLIConfig) : Option String :=
  if m.L1RPCURL = "" then some "must provide a L1 RPC url"
  else if m.NumConfirmations = 0 then some "NumConfirmations must not be 0"
  else if m.NetworkTimeout = 0 then some "must provide NetworkTimeout"
  else if m.ResubmissionTimeout = 0 then some "must provide ResubmissionTimeout"
  else if m.ReceiptQueryInterval = 0 then some "must provide ReceiptQueryInterval"
  else if m.TxNotInMempoolTimeout = 0 then some "must provide TxNotInMempoolTimeout"
  else if m.SafeAbortNonceTooLowCount = 0 then some "SafeAbortNonceTooLowCount must not be 0"
  else
    match m.SignerCLIConfig.Check with
    | some err => some err
    | none => none

/-- A concrete configuration mirroring the flag defaults of `cli.go`
(`TxSendTimeout` defaults to 0, "If 0 it is disabled"), with a passing
signer config and an L1 RPC url supplied. -/
def defaultishCfg : CLIConfig :=
  { L1RPCURL := "http://localhost:8545"
    Mnemonic := ""
    HDPath := ""
    PrivateKey := ""
    SignerCLIConfig := { checkResult := none }
    NumConfirmations := 10
    SafeAbortNonceTooLowCount := 3
    TxBufferSize := 10
    ResubmissionTimeout := 48
    ReceiptQueryInterval := 12
    NetworkTimeout := 2
    TxSendTimeout := 0
    TxNotInMempoolTimeout := 120 }

/-- `defaultishCfg` with different key-management secrets and a zero
`TxBufferSize`; all fields that `Check` reads are unchanged. -/
def secretsCfg : CLIConfig :=
  { defaultishCfg with
    Mnemonic := "test test test"
    HDPath := "m/44h/60h/0h/0/1"
    PrivateKey := "0101"
    TxBufferSize := 0 }

/-- `defaultishCfg` with the L1 RPC url missing, so `Check` fails. -/
def badCfg : CLIConfig :=
  { defaultishCfg with L1RPCURL := "" }

/-- Embeds `txmgr.Config` from `utils/service/txmgr/cli.go` lines 209-253.
The backend handle, signer function and account address are opaque to this
layer, so they are type parameters. -/
structure Config (B S A : Type) where
  Backend : B
  ResubmissionTimeout : Nat
  ChainID : Int
  TxSendTimeout : Nat
  TxNotInMempoolTimeout : Nat
  NetworkTimeout : Nat
  ReceiptQueryInterval : Nat
  NumConfirmations : Nat
  SafeAbortNonceTooLowCount : Nat
  TxBufferSize : Nat
  Signer : S
  From : A

/-- The effectful collaborators of `NewConfig`: `ethclient.DialContext`, the
client's `ChainID` call, and `kcrypto.SignerFactoryFromConfig` (which takes
the private key, mnemonic, HD path and signer config, and yields a
chain-id-indexed signer factory together with the sending address). -/
structure Env (B S A : Type) where
  dial : String → Except String B
  chainID : B → Except String Int
  signerFromConfig : String → String → String → SignerCLIConfig →
    Except String ((Int → S) × A)

/-- Embeds `NewConfig` from `utils/service/txmgr/cli.go` lines 168-206:
validate the CLI config, dial the L1 client, fetch its chain id, build the
signer, and snapshot the policy fields into a `Config`. -/
def NewConfig {B S A : Type} (env : Env B S A) (cfg : CLIConfig) :
    Except String (Config B S A) :=
  match cfg.Check with
  | some err => .error ("invalid config: " ++ err)
  | none =>
    match env.dial cfg.L1RPCURL with
    | .error err => .error ("could not dial eth client: " ++ err)
    | .ok l1 =>
      match env.chainID l1 with
      | .error err => .error ("could not dial fetch L1 chain ID: " ++ err)
      | .ok chainID =>
        match env.signerFromConfig cfg.PrivateKey cfg.Mnemonic cfg.HDPath
            cfg.SignerCLIConfig with
        | .error err => .error ("could not init signer: " ++ err)
        | .ok sf =>
          .ok { Backend := l1
                ResubmissionTimeout := cfg.ResubmissionTimeout
                ChainID := chainID
                TxSendTimeout := cfg.TxSendTimeout
                TxNotInMempoolTimeout := cfg.TxNotInMempoolTimeout
                NetworkTimeout := cfg.NetworkTimeout
                ReceiptQueryInterval := cfg.ReceiptQueryInterval
                NumConfirmations := cfg.NumConfirmations
                SafeAbortNonceTooLowCount := cfg.SafeAbortNonceTooLowCount
                TxBufferSize := cfg.TxBufferSize
                Signer := sf.1 chainID
                From := sf.2 }

/-- A concrete environment over `Nat` handles, for evaluating `NewConfig`
at a concrete input. -/
def envW : Env Nat Nat Nat :=
  { dial := fun _ => .ok 0
    chainID := fun _ => .ok 7
    signerFromConfig := fun _ _ _ _ => .ok (fun cid => cid.toNat, 5) }

/-- The `Config` that `NewConfig envW defaultishCfg` produces. -/
def cfgSnapshotW : Config Nat Nat Nat :=
  { Backend := 0
    ResubmissionTimeout := 48
    ChainID := 7
    TxSendTimeout := 0
    TxNotInMempoolTimeout := 120
    NetworkTimeout := 2
    ReceiptQueryInterval := 12
    NumConfirmations := 10
    SafeAbortNonceTooLowCount := 3
    TxBufferSize := 10
    Signer := 7
    From := 5 }

/-! Flag definitions from `utils/service/txmgr/cli.go` lines 20-104 and
`PrefixEnvVar` from `utils/service/util.go` lines 19-21. -/

def L1RPCFlagName : String := "l1-eth-rpc"

def MnemonicFlagName : String := "mnemonic"

def HDPathFlagName : String := "hd-path"

def PrivateKeyFlagName : String := "private-key"

def NumConfirmationsFlagName : String := "num-confirmations"

def SafeAbortNonceTooLowCountFlagName : String := "safe-abort-nonce-too-low-count"

def ResubmissionTimeoutFlagName : String := "resubmission-timeout"

def NetworkTimeoutFlagName : String := "network-timeout"

def TxSendTimeoutFlagName : String := "txmgr.send-timeout"

def TxNotInMempoolTimeoutFlagName : String := "txmgr.not-in-mempool-timeout"

def ReceiptQueryIntervalFlagName : String := "txmgr.receipt-query-interval"

def BufferSizeFlagName : String := "txmgr.buffer-size"

/-- Embeds `PrefixEnvVar` from `utils/service/util.go`. -/
def PrefixEnvVar (pfx sfx : String) : String :=
  pfx ++ "_" ++ sfx

/-- A CLI flag, reduced to the two attributes the claims speak about:
its name and its environment variable. -/
structure Flag where
  name : String
  envVar : String
deriving DecidableEq

/-- The eleven flags built inline by `CLIFlags` in
`utils/service/txmgr/cli.go` lines 39-102, in source order. -/
def txmgrFlags (envPfx : String) : List Flag :=
  [ { name := MnemonicFlagName, envVar := PrefixEnvVar envPfx "MNEMONIC" },
    { name := HDPathFlagName, envVar := PrefixEnvVar envPfx "HD_PATH" },
    { name := "private-key", envVar := PrefixEnvVar envPfx "PRIVATE_KEY" },
    { name := NumConfirmationsFlagName,
      envVar := PrefixEnvVar envPfx "NUM_CONFIRMATIONS" },
    { name := SafeAbortNonceTooLowCountFlagName,
      envVar := PrefixEnvVar envPfx "SAFE_ABORT_NONCE_TOO_LOW_COUNT" },
    { name := ResubmissionTimeoutFlagName,
      envVar := PrefixEnvVar envPfx "RESUBMISSION_TIMEOUT" },
    { name := NetworkTimeoutFlagName,
      envVar := PrefixEnvVar envPfx "NETWORK_TIMEOUT" },
    { name := TxSendTimeoutFlagName,
      envVar := PrefixEnvVar envPfx "TXMGR_TX_SEND_TIMEOUT" },
    { name := TxNotInMempoolTimeoutFlagName,
      envVar := PrefixEnvVar envPfx "TXMGR_TX_NOT_IN_MEMPOOL_TIMEOUT" },
    { name := ReceiptQueryIntervalFlagName,
      envVar := PrefixEnvVar envPfx "TXMGR_RECEIPT_QUERY_INTERVAL" },
    { name := BufferSizeFlagName,
      envVar := PrefixEnvVar envPfx "TXMGR_BUFFER_SIZE" } ]

/-- Embeds `CLIFlags` from `utils/service/txmgr/cli.go`: the eleven txmgr
flags followed by `client.CLIFlags(envPrefix)`. The signer client flags live
outside the embedded sources, so they are an abstract list parameter. -/
def CLIFlags (envPfx : String) (signerFlags : List Flag) : List Flag :=
  txmgrFlags envPfx ++ signerFlags

/-- The names of the eleven txmgr flags, in source order. -/
def txmgrFlagNames : List String :=
  [ MnemonicFlagName, HDPathFlagName, PrivateKeyFlagName,
    NumConfirmationsFlagName, SafeAbortNonceTooLowCountFlagName,
    ResubmissionTimeoutFlagName, NetworkTimeoutFlagName,
    TxSendTimeoutFlagName, TxNotInMempoolTimeoutFlagName,
    ReceiptQueryIntervalFlagName, BufferSizeFlagName ]

/-- The environment-variable suffixes of the eleven txmgr flags, in source
order. -/
def txmgrEnvVarSuffixes : List String :=
  [ "MNEMONIC", "HD_PATH", "PRIVATE_KEY", "NUM_CONFIRMATIONS",
    "SAFE_ABORT_NONCE_TOO_LOW_COUNT", "RESUBMISSION_TIMEOUT",
    "NETWORK_TIMEOUT", "TXMGR_TX_SEND_TIMEOUT",
    "TXMGR_TX_NOT_IN_MEMPOOL_TIMEOUT", "TXMGR_RECEIPT_QUERY_INTERVAL",
    "TXMGR_BUFFER_SIZE" ]

/-- The `cli.Context` as `ReadCLIConfig` uses it: lookup of string, uint64
and duration flag values by global flag name, plus the signer config read
by `client.ReadCLIConfig`. -/
structure CLIContext where
  globalString : String → String
  globalUint64 : String → Nat
  globalDuration : String → Nat
  signerCfg : SignerCLIConfig

/-- Embeds `ReadCLIConfig` from `utils/service/txmgr/cli.go` lines 150-166. -/
def ReadCLIConfig (ctx : CLIContext) : CLIConfig :=
  { L1RPCURL := ctx.globalString L1RPCFlagName
    Mnemonic := ctx.globalString MnemonicFlagName
    HDPath := ctx.globalString HDPathFlagName
    PrivateKey := ctx.globalString PrivateKeyFlagName
    SignerCLIConfig := ctx.signerCfg
    NumConfirmations := ctx.globalUint64 NumConfirmationsFlagName
    SafeAbortNonceTooLowCount := ctx.globalUint64 SafeAbortNonceTooLowCountFlagName
    ResubmissionTimeout := ctx.globalDuration ResubmissionTimeoutFlagName
    ReceiptQueryInterval := ctx.globalDuration ReceiptQueryIntervalFlagName
    NetworkTimeout := ctx.globalDuration NetworkTimeoutFlagName
    TxSendTimeout := ctx.globalDuration TxSendTimeoutFlagName
    TxNotInMempoolTimeout := ctx.globalDuration TxNotInMempoolTimeoutFlagName
    TxBufferSize := ctx.globalUint64 BufferSizeFlagName }

/-! Environment-variable validation from `utils/service/util.go` lines
52-67, over byte strings modelled as `List Char`. -/

/-- Embeds Go's `strings.Split(s, sep)` for a one-character separator: the
substrings of `s` between occurrences of `sep`, always at least one part. -/
def goSplit (sep : Char) : List Char → List (List Char)
  | [] => [[]]
  | a :: rest =>
    if a = sep then [] :: goSplit sep rest
    else
      match goSplit sep rest with
      | [] => [[a]]
      | p :: ps => (a :: p) :: ps

/-- Embeds `validateEnvVars` from `utils/service/util.go`: keep, in order,
every provided `KEY=VALUE` entry whose part before the first `=` has the
prefix and is not among the defined env-var names (the Go map is used only
for membership, so it is a list here). -/
def validateEnvVars (pfx : List Char) (provided : List (List Char))
    (defined : List (List Char)) : List (List Char) :=
  match provided with
  | [] => []
  | envVar :: rest =>
    match goSplit '=' envVar with
    | [] => validateEnvVars pfx rest defined
    | key :: _ =>
      if pfx.isPrefixOf key then
        if defined.contains key then validateEnvVars pfx rest defined
        else envVar :: validateEnvVars pfx rest defined
      else validateEnvVars pfx rest defined

/-- The text before the first `=` of an env entry. -/
def envKey (s : List Char) : List Char :=
  s.takeWhile (fun c => c != '=')

/-! Address parsing from `utils/service/util.go` lines 69-76, together with
the go-ethereum `common` helpers it calls (`IsHexAddress`, `HexToAddress`),
over `List Char` / byte lists. -/

/-- go-ethereum `has0xPrefix`: the string starts with `0x` or `0X`. -/
def has0x (s : List Char) : Bool :=
  match s with
  | c0 :: c1 :: _ => c0 = '0' && (c1 = 'x' || c1 = 'X')
  | _ => false

/-- go-ethereum `isHexCharacter`. -/
def isHexCharacter (c : Char) : Bool :=
  ('0' ≤ c && c ≤ '9') || ('a' ≤ c && c ≤ 'f') || ('A' ≤ c && c ≤ 'F')

/-- go-ethereum `isHex`: even length, all hex characters. -/
def isHex (s : List Char) : Bool :=
  s.length % 2 = 0 && s.all isHexCharacter

/-- go-ethereum `common.IsHexAddress`: after stripping an optional `0x`/`0X`
prefix, exactly `2 * AddressLength = 40` hex characters. -/
def IsHexAddress (s : List Char) : Bool :=
  let t := if has0x s then s.drop 2 else s
  t.length = 40 && isHex t

/-- The value of a hex digit (0 for a non-hex character, which the decoder
never reaches). -/
def hexDigit (c : Char) : Nat :=
  if '0' ≤ c && c ≤ '9' then c.toNat - '0'.toNat
  else if 'a' ≤ c && c ≤ 'f' then c.toNat - 'a'.toNat + 10
  else if 'A' ≤ c && c ≤ 'F' then c.toNat - 'A'.toNat + 10
  else 0

/-- Hex decoding as `common.Hex2Bytes` behaves (`hex.DecodeString` with the
error ignored): decode byte pairs until the input is exhausted or invalid. -/
def hex2Bytes : List Char → List Nat
  | a :: b :: rest =>
    if isHexCharacter a && isHexCharacter b then
      (hexDigit a * 16 + hexDigit b) :: hex2Bytes rest
    else []
  | _ => []

/-- go-ethereum `common.FromHex`: strip an optional `0x`/`0X` prefix, left-pad
an odd-length string with `0`, then decode. -/
def fromHex (s : List Char) : List Nat :=
  let t := if has0x s then s.drop 2 else s
  let t := if t.length % 2 = 1 then '0' :: t else t
  hex2Bytes t

/-- go-ethereum `common.BytesToAddress` (`SetBytes`): keep the last 20 bytes
and left-pad with zeros to 20 bytes. -/
def bytesToAddress (b : List Nat) : List Nat :=
  let b := if 20 < b.length then b.drop (b.length - 20) else b
  List.replicate (20 - b.length) 0 ++ b

/-- go-ethereum `common.HexToAddress`. -/
def HexToAddress (s : List Char) : List Nat :=
  bytesToAddress (fromHex s)

/-- `common.Address{}`, the zero address. -/
def zeroAddress : List Nat :=
  List.replicate 20 0

/-- Embeds `ParseAddress` from `utils/service/util.go`: the parsed address
with a nil error when `IsHexAddress` holds, otherwise the zero address with
an `invalid address` error. -/
def ParseAddress (s : List Char) : List Nat × Option (List Char) :=
  if IsHexAddress s then (HexToAddress s, none)
  else (zeroAddress, some ("invalid address: ".toList ++ s))

/-! Spec-level models of the submission loop. The `SimpleTxManager` send
loop and gas pricer are not among the embedded sources (only their
configuration layer is), so the definitions below are built from the
specification's own description of their behaviour. -/

/-- Modelled from the spec: the terminal states of one Send
(state machine of section 4.4: `Confirmed | NonceStale | Underfunded |
NotInMempool | TimedOut | Cancelled`). -/
inductive SendOutcome where
  | Confirmed (block : Nat)
  | NonceStale
  | Underfunded
  | NotInMempool
  | TimedOut
  | Cancelled
deriving DecidableEq

/-- Modelled from the spec: the Submission Loop run against a backend that
answers every broadcast with "nonce too low" (sections 4.2 step 4 and 8).
Each broadcast attempt increments a dedicated observation counter; once the
counter reaches the configured tolerance (`SafeAbortNonceTooLowCount`) the
Send aborts with `NonceStale` — section 8 fixes the boundary at exactly that
many observations. The result pairs the total number of nonce-too-low
observations with the terminal outcome. -/
def submitAllNonceTooLow (tolerance : Nat) (count : Nat) : Nat × SendOutcome :=
  if h : tolerance ≤ count + 1 then (count + 1, SendOutcome.NonceStale)
  else submitAllNonceTooLow tolerance (count + 1)
termination_by tolerance - count
decreasing_by omega

/-- Modelled from the spec: the Gas Pricer's
`NextBid(previousBid, attemptIndex, chainSuggestedFee)` (section 4.3).
An escalated bid is strictly above the previous bid, at least the chain's
suggested fee, and capped at the configured ceiling. -/
def nextBid (ceiling prev suggested : Nat) : Nat :=
  min ceiling (max (prev + 1) suggested)

/-- Modelled from the spec: the sequence of Candidates (nonce, fee bid) the
Submission Loop broadcasts for one Call (sections 3, 4.2 and 4.3). All
Candidates carry the nonce of the Call's NonceLease; each escalation asks
the Gas Pricer for the next bid; only one publication at the ceiling
(`MaxGasPrice`) is attempted, after which no further Candidate is produced.
`sugg` supplies the chain's suggested fee at each escalation. -/
def candidates (nonce ceiling bid : Nat) : List Nat → List (Nat × Nat)
  | [] => [(nonce, bid)]
  | s :: rest =>
    if ceiling ≤ bid then [(nonce, bid)]
    else (nonce, bid) :: candidates nonce ceiling (nextBid ceiling bid s) rest

/-! Theorems. -/

/-- Claim C1, counterexample: `Check` accepts a configuration whose
`TxSendTimeout` is 0 (the flag default), so a nil result from `Check` does
not imply that every duration field is non-zero. -/
theorem check_zero_send_timeout_cex :
    defaultishCfg.Check = none ∧ defaultishCfg.TxSendTimeout = 0 :=
  ⟨by decide, rfl⟩

/-- Claim C1, amended: `Check` returns nil only if `ResubmissionTimeout`,
`NetworkTimeout`, `ReceiptQueryInterval` and `TxNotInMempoolTimeout` are
non-zero, `NumConfirmations ≥ 1` and `SafeAbortNonceTooLowCount ≥ 1`;
`TxSendTimeout` is not validated and may be zero. -/
theorem check_nil_requires_nonzero_policy (cfg : CLIConfig)
    (h : cfg.Check = none) :
    cfg.ResubmissionTimeout ≠ 0 ∧ cfg.NetworkTimeout ≠ 0 ∧
    cfg.ReceiptQueryInterval ≠ 0 ∧ cfg.TxNotInMempoolTimeout ≠ 0 ∧
    1 ≤ cfg.NumConfirmations ∧ 1 ≤ cfg.SafeAbortNonceTooLowCount := by
  simp only [CLIConfig.Check] at h
  split_ifs at h with h1 h2 h3 h4 h5 h6 h7
  exact ⟨h4, h3, h5, h6, Nat.pos_of_ne_zero h2, Nat.pos_of_ne_zero h7⟩

/-- Witness for `check_nil_requires_nonzero_policy` at `defaultishCfg`. -/
theorem check_nil_requires_nonzero_policy_w :
    defaultishCfg.ResubmissionTimeout ≠ 0 ∧ defaultishCfg.NetworkTimeout ≠ 0 ∧
    defaultishCfg.ReceiptQueryInterval ≠ 0 ∧
    defaultishCfg.TxNotInMempoolTimeout ≠ 0 ∧
    1 ≤ defaultishCfg.NumConfirmations ∧
    1 ≤ defaultishCfg.SafeAbortNonceTooLowCount :=
  check_nil_requires_nonzero_policy defaultishCfg (by decide)

/-- Claim C2: a configuration with `TxSendTimeout = 0` but all validated
fields in order passes `Check` with a nil error. -/
theorem check_allows_zero_send_timeout (cfg : CLIConfig)
    (_hz : cfg.TxSendTimeout = 0) (h1 : cfg.L1RPCURL ≠ "")
    (h2 : cfg.NumConfirmations ≠ 0) (h3 : cfg.NetworkTimeout ≠ 0)
    (h4 : cfg.ResubmissionTimeout ≠ 0) (h5 : cfg.ReceiptQueryInterval ≠ 0)
    (h6 : cfg.TxNotInMempoolTimeout ≠ 0)
    (h7 : cfg.SafeAbortNonceTooLowCount ≠ 0)
    (h8 : cfg.SignerCLIConfig.Check = none) :
    cfg.Check = none := by
  simp [CLIConfig.Check, h1, h2, h3, h4, h5, h6, h7, h8]

/-- Witness for `check_allows_zero_send_timeout` at `defaultishCfg`. -/
theorem check_allows_zero_send_timeout_w : defaultishCfg.Check = none :=
  check_allows_zero_send_timeout defaultishCfg rfl (by decide) (by decide)
    (by decide) (by decide) (by decide) (by decide) (by decide) rfl

/-- Claim C10: the outcome of `Check` does not depend on `Mnemonic`,
`HDPath`, `PrivateKey` or `TxBufferSize` — two configurations that agree on
every other field get the same `Check` result. -/
theorem check_ignores_secrets_and_buffer (c1 c2 : CLIConfig)
    (hurl : c1.L1RPCURL = c2.L1RPCURL)
    (hsig : c1.SignerCLIConfig = c2.SignerCLIConfig)
    (hnum : c1.NumConfirmations = c2.NumConfirmations)
    (hsafe : c1.SafeAbortNonceTooLowCount = c2.SafeAbortNonceTooLowCount)
    (hres : c1.ResubmissionTimeout = c2.ResubmissionTimeout)
    (hrqi : c1.ReceiptQueryInterval = c2.ReceiptQueryInterval)
    (hnet : c1.NetworkTimeout = c2.NetworkTimeout)
    (_hsend : c1.TxSendTimeout = c2.TxSendTimeout)
    (hmem : c1.TxNotInMempoolTimeout = c2.TxNotInMempoolTimeout) :
    c1.Check = c2.Check := by
  simp only [CLIConfig.Check, hurl, hsig, hnum, hsafe, hres, hrqi, hnet, hmem]

/-- Witness for `check_ignores_secrets_and_buffer`: `secretsCfg` differs
from `defaultishCfg` exactly in the three key-management secrets and in
`TxBufferSize` (which is 0), and both pass `Check`. -/
theorem check_ignores_secrets_and_buffer_w :
    secretsCfg.Check = defaultishCfg.Check ∧ secretsCfg.Check = none ∧
    secretsCfg.TxBufferSize = 0 :=
  ⟨check_ignores_secrets_and_buffer secretsCfg defaultishCfg rfl rfl rfl rfl
    rfl rfl rfl rfl rfl, by decide, rfl⟩

/-- Claim C3: when `Check` fails, `NewConfig` returns the wrapped validation
error, and the result is the same for every environment — no dial, chain-id
fetch or signer construction is consulted. -/
theorem newConfig_fails_fast {B S A : Type} (env : Env B S A)
    (cfg : CLIConfig) (err : String) (h : cfg.Check = some err) :
    NewConfig env cfg = Except.error ("invalid config: " ++ err) := by
  unfold NewConfig
  rw [h]

/-- Witness for `newConfig_fails_fast` at `badCfg`. -/
theorem newConfig_fails_fast_w :
    NewConfig envW badCfg =
      Except.error ("invalid config: " ++ "must provide a L1 RPC url") :=
  newConfig_fails_fast envW badCfg "must provide a L1 RPC url" (by decide)

/-- Claim C4: when `NewConfig` succeeds, the returned `Config` copies all
eight policy fields from the `CLIConfig` unchanged, and its `ChainID` is the
chain id reported by the dialed backend. -/
theorem newConfig_snapshot {B S A : Type} (env : Env B S A)
    (cfg : CLIConfig) (c : Config B S A)
    (h : NewConfig env cfg = Except.ok c) :
    c.ResubmissionTimeout = cfg.ResubmissionTimeout ∧
    c.TxSendTimeout = cfg.TxSendTimeout ∧
    c.TxNotInMempoolTimeout = cfg.TxNotInMempoolTimeout ∧
    c.NetworkTimeout = cfg.NetworkTimeout ∧
    c.ReceiptQueryInterval = cfg.ReceiptQueryInterval ∧
    c.NumConfirmations = cfg.NumConfirmations ∧
    c.SafeAbortNonceTooLowCount = cfg.SafeAbortNonceTooLowCount ∧
    c.TxBufferSize = cfg.TxBufferSize ∧
    ∃ b, env.dial cfg.L1RPCURL = Except.ok b ∧
      env.chainID b = Except.ok c.ChainID ∧ c.Backend = b := by
  unfold NewConfig at h
  split at h
  next => exact Except.noConfusion h
  next =>
    split at h
    next => exact Except.noConfusion h
    next l1 hd =>
      split at h
      next => exact Except.noConfusion h
      next cid hcid =>
        split at h
        next => exact Except.noConfusion h
        next sf hs =>
          simp only [Except.ok.injEq] at h
          subst h
          exact ⟨rfl, rfl, rfl, rfl, rfl, rfl, rfl, rfl, l1, hd, hcid, rfl⟩

/-- Witness for `newConfig_snapshot`: `NewConfig envW defaultishCfg`
evaluates to `cfgSnapshotW`. -/
theorem newConfig_snapshot_w :
    cfgSnapshotW.ResubmissionTimeout = defaultishCfg.ResubmissionTimeout :=
  (newConfig_snapshot envW defaultishCfg cfgSnapshotW rfl).1

/-- Helper: from any starting counter below the tolerance, the all-nonce-
too-low loop ends with `NonceStale` at exactly `tolerance` observations. -/
theorem submitAllNonceTooLow_run (tolerance : Nat) :
    ∀ k count, count + k = tolerance → 0 < k →
      submitAllNonceTooLow tolerance count = (tolerance, SendOutcome.NonceStale) := by
  intro k
  induction k with
  | zero => intro count _ hk; exact absurd hk (by omega)
  | succ k ih =>
    intro count hc _
    unfold submitAllNonceTooLow
    split
    next hle =>
      have : count + 1 = tolerance := by omega
      rw [this]
    next hle => exact ih (count + 1) (by omega) (by omega)

/-- Claim C5: against a backend that reports "nonce too low" on every
broadcast, a Send terminates with `NonceStale` after exactly
`SafeAbortNonceTooLowCount` observations (the first component counts the
observations made). -/
theorem send_nonce_stale_exact (tolerance : Nat) (h : 1 ≤ tolerance) :
    submitAllNonceTooLow tolerance 0 = (tolerance, SendOutcome.NonceStale) :=
  submitAllNonceTooLow_run tolerance tolerance 0 (by omega) h

/-- Witness for `send_nonce_stale_exact` at the default tolerance 3. -/
theorem send_nonce_stale_exact_w :
    1 ≤ 3 ∧ submitAllNonceTooLow 3 0 = (3, SendOutcome.NonceStale) :=
  ⟨by decide, send_nonce_stale_exact 3 (by decide)⟩

/-- Helper: an escalated bid strictly exceeds the previous bid whenever the
previous bid is below the ceiling. -/
theorem nextBid_gt (ceiling prev suggested : Nat) (h : prev < ceiling) :
    prev < nextBid ceiling prev suggested := by
  simp only [nextBid, Nat.min_def, Nat.max_def]
  split_ifs <;> omega

/-- Helper: the first Candidate in the sequence carries the given nonce and
bid. -/
theorem candidates_head (nonce ceiling bid : Nat) (sugg : List Nat) :
    (candidates nonce ceiling bid sugg).head? = some (nonce, bid) := by
  cases sugg with
  | nil => rfl
  | cons s rest =>
    simp only [candidates]
    split <;> rfl

/-- Helper: every Candidate carries the Call's nonce, and consecutive fee
bids strictly increase. -/
theorem candidates_nonce_bids (nonce ceiling : Nat) (sugg : List Nat) :
    ∀ bid, (∀ c ∈ candidates nonce ceiling bid sugg, c.1 = nonce) ∧
      List.Chain' (fun a b : Nat × Nat => a.2 < b.2)
        (candidates nonce ceiling bid sugg) := by
  induction sugg with
  | nil =>
    intro bid
    refine ⟨?_, by simp [candidates]⟩
    intro c hc
    simp only [candidates, List.mem_singleton] at hc
    rw [hc]
  | cons s rest ih =>
    intro bid
    by_cases hcb : ceiling ≤ bid
    · simp only [candidates, if_pos hcb]
      refine ⟨?_, by simp⟩
      intro c hc
      simp only [List.mem_singleton] at hc
      rw [hc]
    · simp only [candidates, if_neg hcb]
      refine ⟨?_, ?_⟩
      · intro c hc
        rcases List.mem_cons.mp hc with rfl | hc
        · rfl
        · exact (ih (nextBid ceiling bid s)).1 c hc
      · rw [List.chain'_cons']
        refine ⟨?_, (ih (nextBid ceiling bid s)).2⟩
        intro b hb
        rw [candidates_head] at hb
        simp only [Option.mem_def, Option.some.injEq] at hb
        rw [← hb]
        exact nextBid_gt ceiling bid s (by omega)

/-- Claim C6: all Candidates produced for one Call carry the same nonce and
their fee bids are non-decreasing, strictly increasing at each escalation. -/
theorem candidates_same_nonce_mono_bids (nonce ceiling bid : Nat)
    (sugg : List Nat) :
    (∀ c ∈ candidates nonce ceiling bid sugg, c.1 = nonce) ∧
    List.Chain' (fun a b : Nat × Nat => a.2 ≤ b.2)
      (candidates nonce ceiling bid sugg) ∧
    List.Chain' (fun a b : Nat × Nat => a.2 < b.2)
      (candidates nonce ceiling bid sugg) := by
  obtain ⟨h1, h2⟩ := candidates_nonce_bids nonce ceiling sugg bid
  exact ⟨h1, h2.imp (fun a b hab => Nat.le_of_lt hab), h2⟩

/-- Claim C7: `CLIFlags` consists of exactly the eleven txmgr/key-management
flags (each name occurring once, since the name list is duplicate-free)
followed by the signer-client flags; each txmgr flag's env var is the prefix
joined to its suffix by an underscore; no flag is defined for the L1 RPC
endpoint, yet `ReadCLIConfig` reads the flag named `L1RPCFlagName`. -/
theorem cliFlags_inventory (envPfx : String) (signerFlags : List Flag) :
    (CLIFlags envPfx signerFlags).map Flag.name =
      txmgrFlagNames ++ signerFlags.map Flag.name ∧
    txmgrFlagNames.Nodup ∧
    L1RPCFlagName ∉ txmgrFlagNames ∧
    (txmgrFlags envPfx).map Flag.envVar =
      txmgrEnvVarSuffixes.map (PrefixEnvVar envPfx) ∧
    ∀ ctx : CLIContext, (ReadCLIConfig ctx).L1RPCURL =
      ctx.globalString L1RPCFlagName := by
  exact ⟨rfl, by decide, by decide, rfl, fun ctx => rfl⟩

/-- Helper: `strings.Split` always yields at least one part. -/
theorem goSplit_ne_nil (sep : Char) (s : List Char) : goSplit sep s ≠ [] := by
  cases s with
  | nil => simp [goSplit]
  | cons a rest =>
    simp only [goSplit]
    split
    · simp
    · split <;> simp

/-- Helper: the first part of `strings.Split(s, "=")` is the text before the
first `=`. -/
theorem goSplit_head (s : List Char) :
    (goSplit '=' s).head? = some (envKey s) := by
  induction s with
  | nil => rfl
  | cons a rest ih =>
    by_cases ha : a = '='
    · rw [ha]
      simp [goSplit, envKey]
    · simp only [goSplit, if_neg ha]
      cases hg : goSplit '=' rest with
      | nil => exact absurd hg (goSplit_ne_nil '=' rest)
      | cons p ps =>
        rw [hg] at ih
        simp only [List.head?_cons, Option.some.injEq] at ih ⊢
        simp only [envKey, List.takeWhile_cons]
        have hne : (a != '=') = true := by simpa using ha
        rw [hne]
        simp [ih, envKey]

/-- Claim C8: `validateEnvVars` returns exactly the provided entries whose
key — the text before the first `=` — has the prefix and is not among the
defined env vars, in input order. -/
theorem validateEnvVars_is_filter (pfx : List Char)
    (provided defined : List (List Char)) :
    validateEnvVars pfx provided defined =
      provided.filter (fun e =>
        pfx.isPrefixOf (envKey e) && !(defined.contains (envKey e))) := by
  induction provided with
  | nil => rfl
  | cons e rest ih =>
    simp only [validateEnvVars]
    cases hg : goSplit '=' e with
    | nil => exact absurd hg (goSplit_ne_nil '=' e)
    | cons key ps =>
      have hkey : key = envKey e := by
        have hh := goSplit_head e
        rw [hg] at hh
        simpa using hh
      rw [hkey, List.filter_cons]
      by_cases h1 : pfx.isPrefixOf (envKey e)
      · by_cases h2 : defined.contains (envKey e)
        · simp [h1, h2, ih]
        · simp [h1, h2, ih]
      · simp [h1, ih]

/-- Claim C9: `ParseAddress` returns a nil error exactly on strings accepted
by `IsHexAddress`, and whenever it returns an error the address it returns
is the zero address. -/
theorem parseAddress_spec (s : List Char) :
    ((ParseAddress s).2 = none ↔ IsHexAddress s = true) ∧
    ((ParseAddress s).2 ≠ none → (ParseAddress s).1 = zeroAddress) := by
  by_cases h : IsHexAddress s = true
  · simp [ParseAddress, h]
  · simp [ParseAddress, h]

/-- Witness for `parseAddress_spec`: a valid 40-hex-digit address parses
with a nil error. -/
theorem parseAddress_spec_w :
    (ParseAddress "0x00000000000000000000000000000000deadbeef".toList).2 =
      none :=
  (parseAddress_spec "0x00000000000000000000000000000000deadbeef".toList).1.mpr
    (by decide)

end Kroma
